import Mathlib

/-!
Shallow embedding of `src/instagram-poster.js` (the carousel publishing
state machine of the AIautopost repository).

The remote Graph API is modelled as an oracle `Nat → ApiResponse`: the
`k`-th HTTP request issued during a run receives response `oracle k`.
A `RunState` records the requests issued so far (in order), the number of
responses consumed, and the total milliseconds slept, so that theorems can
speak about which network calls a run performs and how long it blocks.
JavaScript `undefined` values that can flow through the code (a response
without an `id` field) are modelled as `Option String`, with the JS
coercions used by the source (template literals, `||`, `Array.join`) made
explicit.
-/

namespace AIAutoPost

/-- A JSON response body as the source reads it: the fields of `data` that
`instagram-poster.js` inspects (`error.message`, `id`, `status_code`,
`status`, `username`, `name`).  A `none` field is an absent (undefined)
field. -/
structure ApiResponse where
  error : Option String
  id : Option String
  status_code : Option String
  status : Option String
  username : Option String
  name : Option String
deriving DecidableEq, Repr

/-- The remote platform: the `k`-th fetch of a run receives `oracle k`. -/
abbrev Oracle := Nat → ApiResponse

/-- One HTTP request as issued by the source, with the parameters the
source puts in the URL / `URLSearchParams`.  `createMedia` is the carousel
item creation (`image_url`, `is_carousel_item`; no caption), `createSingle`
the single-image creation (`image_url` and `caption`, no
`is_carousel_item`), `checkStatus` the GET status query, `createCarousel`
the parent creation (`media_type=CAROUSEL`, joined `children`, `caption`),
`mediaPublish` the `/media_publish` POST, `getMe` the `/me` identity
probe. -/
inductive Request where
  | createMedia (igAccountId imageUrl : String) (isCarouselItem : Bool)
  | createSingle (igAccountId imageUrl caption : String)
  | checkStatus (containerId : String)
  | createCarousel (igAccountId children caption : String)
  | mediaPublish (igAccountId creationId : String)
  | getMe
deriving DecidableEq, Repr

/-- Whether a request is a state-mutating POST (as opposed to a read-only
GET) in the source. -/
def Request.isMutation : Request → Bool
  | .createMedia _ _ _ => true
  | .createSingle _ _ _ => true
  | .checkStatus _ => false
  | .createCarousel _ _ _ => true
  | .mediaPublish _ _ => true
  | .getMe => false

/-- The observable state of a run: requests issued so far (in order), the
number of oracle responses consumed, and total milliseconds spent in
`sleep`. -/
structure RunState where
  calls : List Request
  n : Nat
  sleptMs : Nat
deriving DecidableEq, Repr

/-- The typed failures thrown by the source (`throw new Error(...)` sites),
one constructor per throw site, carrying the data the thrown message is
built from. -/
inductive PostError where
  | noValidMedia
  | createContainerFailed (msg : String)
  | createCarouselFailed (msg : String)
  | createImagePostFailed (msg : String)
  | publishFailed (msg : String)
  | containerError (containerId statusText : String)
  | containerTimeout (containerId : String) (maxAttempts : Nat)
deriving DecidableEq, Repr

/-- The message string of each thrown `Error`, exactly as the source
formats it (note the timeout message renders `maxAttempts * 2` seconds). -/
def PostError.message : PostError → String
  | .noValidMedia => "No valid image URLs to post"
  | .createContainerFailed m => "Failed to create media container: " ++ m
  | .createCarouselFailed m => "Failed to create carousel: " ++ m
  | .createImagePostFailed m => "Failed to create image post: " ++ m
  | .publishFailed m => "Failed to publish: " ++ m
  | .containerError c s => "Container " ++ c ++ " failed: " ++ s
  | .containerTimeout c a => "Container " ++ c ++ " timed out after " ++ toString (a * 2) ++ " seconds"

/-- The platform message of a failure that comes from an `error` object in
a creation/publish response (`RemoteApiError` in the spec's taxonomy);
`none` for the polling failures and the local input check. -/
def PostError.remoteApiMessage : PostError → Option String
  | .createContainerFailed m => some m
  | .createCarouselFailed m => some m
  | .createImagePostFailed m => some m
  | .publishFailed m => some m
  | _ => none

/-- JS template-literal / URLSearchParams coercion: `undefined` renders as
the string `"undefined"`. -/
def jsTemplate (v : Option String) : String := v.getD "undefined"

/-- JS `a || b` on strings: the empty string is falsy. -/
def jsOr (a b : Option String) : Option String :=
  match a with
  | some s => if s = "" then b else some s
  | none => b

/-- JS `v || d` with a string default (used for `status.status || 'Unknown
error'`). -/
def jsOrDefault (v : Option String) (d : String) : String :=
  match v with
  | some s => if s = "" then d else s
  | none => d

/-- JS `Array.prototype.join(',')`: `undefined` elements render as the
empty string. -/
def jsJoinComma (xs : List (Option String)) : String :=
  String.intercalate "," (xs.map (fun v => v.getD ""))

/-- `sleep(ms)`: no observable effect other than elapsed time. -/
def sleep (ms : Nat) (st : RunState) : RunState :=
  { calls := st.calls, n := st.n, sleptMs := st.sleptMs + ms }

/-- `await fetch(...); await res.json()`: issues one request and consumes
the next oracle response. -/
def fetchJson (oracle : Oracle) (req : Request) (st : RunState) : ApiResponse × RunState :=
  (oracle st.n, { calls := st.calls ++ [req], n := st.n + 1, sleptMs := st.sleptMs })

/-- `createMediaContainer(igAccountId, imageUrl, isCarouselItem = true)`:
POST `/media` with `image_url` and `is_carousel_item`; throws on an
`error` object, else returns `data.id`. -/
def createMediaContainer (oracle : Oracle) (igAccountId imageUrl : String)
    (isCarouselItem : Bool) (st : RunState) :
    Except PostError (Option String) × RunState :=
  let r := fetchJson oracle (.createMedia igAccountId imageUrl isCarouselItem) st
  match r.1.error with
  | some msg => (.error (.createContainerFailed msg), r.2)
  | none => (.ok r.1.id, r.2)

/-- `checkContainerStatus(containerId)`: GET the container's
`status_code,status`; returns the body unchecked (no error inspection). -/
def checkContainerStatus (oracle : Oracle) (containerId : Option String) (st : RunState) :
    ApiResponse × RunState :=
  fetchJson oracle (.checkStatus (jsTemplate containerId)) st

/-- The `for (let i = 0; i < maxAttempts; i++)` loop body of
`waitForContainer`, with `fuel` the remaining iterations and `maxAttempts`
the original bound (used in the timeout error). -/
def waitForContainerGo (oracle : Oracle) (containerId : Option String) (maxAttempts : Nat) :
    Nat → RunState → Except PostError Unit × RunState
  | 0, st => (.error (.containerTimeout (jsTemplate containerId) maxAttempts), st)
  | fuel + 1, st =>
    let r := checkContainerStatus oracle containerId st
    if r.1.status_code = some "FINISHED" then
      (.ok (), r.2)
    else if r.1.status_code = some "ERROR" then
      (.error (.containerError (jsTemplate containerId) (jsOrDefault r.1.status "Unknown error")), r.2)
    else
      waitForContainerGo oracle containerId maxAttempts fuel (sleep 2000 r.2)

/-- `waitForContainer(containerId, maxAttempts = 30)`: poll until
`FINISHED` (success), `ERROR` (container failure), or the attempt cap
(timeout).  The source's default `maxAttempts` is 30; every caller in the
source uses the default. -/
def waitForContainer (oracle : Oracle) (containerId : Option String) (maxAttempts : Nat)
    (st : RunState) : Except PostError Unit × RunState :=
  waitForContainerGo oracle containerId maxAttempts maxAttempts st

/-- `createCarouselContainer(igAccountId, childContainerIds, caption)`:
POST `/media` with `media_type=CAROUSEL`, `children` the comma-join of the
child ids, and the caption. -/
def createCarouselContainer (oracle : Oracle) (igAccountId : String)
    (childContainerIds : List (Option String)) (caption : String) (st : RunState) :
    Except PostError (Option String) × RunState :=
  let r := fetchJson oracle (.createCarousel igAccountId (jsJoinComma childContainerIds) caption) st
  match r.1.error with
  | some msg => (.error (.createCarouselFailed msg), r.2)
  | none => (.ok r.1.id, r.2)

/-- `publishMedia(igAccountId, creationId)`: POST `/media_publish`. -/
def publishMedia (oracle : Oracle) (igAccountId : String) (creationId : Option String)
    (st : RunState) : Except PostError (Option String) × RunState :=
  let r := fetchJson oracle (.mediaPublish igAccountId (jsTemplate creationId)) st
  match r.1.error with
  | some msg => (.error (.publishFailed msg), r.2)
  | none => (.ok r.1.id, r.2)

/-- `createSingleImageContainer(igAccountId, imageUrl, caption)`: POST
`/media` with `image_url` and `caption` (no `is_carousel_item`). -/
def createSingleImageContainer (oracle : Oracle) (igAccountId imageUrl caption : String)
    (st : RunState) : Except PostError (Option String) × RunState :=
  let r := fetchJson oracle (.createSingle igAccountId imageUrl caption) st
  match r.1.error with
  | some msg => (.error (.createImagePostFailed msg), r.2)
  | none => (.ok r.1.id, r.2)

/-- Step 1 of the carousel branch of `postCarousel`: the
`for (let i = 0; ...)` loop creating one item container per URL, pushing
the returned ids in order, with `await sleep(1000)` after each creation. -/
def createItemContainers (oracle : Oracle) (igAccountId : String) :
    List String → RunState → Except PostError (List (Option String)) × RunState
  | [], st => (.ok [], st)
  | url :: rest, st =>
    match createMediaContainer oracle igAccountId url true st with
    | (.error e, st1) => (.error e, st1)
    | (.ok cid, st1) =>
      match createItemContainers oracle igAccountId rest (sleep 1000 st1) with
      | (.error e, st2) => (.error e, st2)
      | (.ok cids, st2) => (.ok (cid :: cids), st2)

/-- Step 2 of the carousel branch: `for (const cid of containerIds) await
waitForContainer(cid)`. -/
def waitForAll (oracle : Oracle) (maxAttempts : Nat) :
    List (Option String) → RunState → Except PostError Unit × RunState
  | [], st => (.ok (), st)
  | cid :: rest, st =>
    match waitForContainer oracle cid maxAttempts st with
    | (.error e, st1) => (.error e, st1)
    | (.ok _, st1) => waitForAll oracle maxAttempts rest st1

/-- `postCarousel(igAccountId, imageUrls, caption, dryRun = false)`: the
carousel publishing state machine.  Null URLs are filtered, an empty
remainder throws, `dryRun` short-circuits with the sentinel, one surviving
URL takes the single-image path, otherwise the carousel path runs
(creations, polls, parent creation, parent poll, publish). -/
def postCarousel (oracle : Oracle) (igAccountId : String) (imageUrls : List (Option String))
    (caption : String) (dryRun : Bool) (st : RunState) :
    Except PostError (Option String) × RunState :=
  let validUrls : List String := imageUrls.filterMap (fun u => u)
  if validUrls.length = 0 then
    (.error .noValidMedia, st)
  else if dryRun then
    (.ok (some "DRY_RUN_SUCCESS"), st)
  else
    match validUrls with
    | [url] =>
      match createSingleImageContainer oracle igAccountId url caption st with
      | (.error e, st1) => (.error e, st1)
      | (.ok containerId, st1) =>
        match waitForContainer oracle containerId 30 st1 with
        | (.error e, st2) => (.error e, st2)
        | (.ok _, st2) => publishMedia oracle igAccountId containerId st2
    | us =>
      match createItemContainers oracle igAccountId us st with
      | (.error e, st1) => (.error e, st1)
      | (.ok containerIds, st1) =>
        match waitForAll oracle 30 containerIds st1 with
        | (.error e, st2) => (.error e, st2)
        | (.ok _, st2) =>
          match createCarouselContainer oracle igAccountId containerIds caption st2 with
          | (.error e, st3) => (.error e, st3)
          | (.ok carouselId, st3) =>
            match waitForContainer oracle carouselId 30 st3 with
            | (.error e, st4) => (.error e, st4)
            | (.ok _, st4) => publishMedia oracle igAccountId carouselId st4

/-- Exhausting the poll budget: if no response in the window is FINISHED
or ERROR, the loop polls `fuel` times (sleeping 2s after each attempt) and
raises the timeout error carrying the original attempt bound. -/
theorem waitForContainerGo_timeout (oracle : Oracle) (cid : Option String) (mA : Nat) :
    ∀ (fuel : Nat) (st : RunState),
    (∀ k, st.n ≤ k → k < st.n + fuel →
      (oracle k).status_code ≠ some "FINISHED" ∧ (oracle k).status_code ≠ some "ERROR") →
    waitForContainerGo oracle cid mA fuel st =
      (.error (.containerTimeout (jsTemplate cid) mA),
       ⟨st.calls ++ List.replicate fuel (Request.checkStatus (jsTemplate cid)),
        st.n + fuel, st.sleptMs + 2000 * fuel⟩) := by
  intro fuel
  induction fuel with
  | zero => intro st h; simp [waitForContainerGo]
  | succ f ih =>
    intro st h
    have h0 := h st.n (Nat.le_refl _) (by omega)
    simp only [waitForContainerGo, checkContainerStatus, fetchJson]
    rw [if_neg h0.1, if_neg h0.2]
    simp only [sleep]
    rw [ih ⟨st.calls ++ [Request.checkStatus (jsTemplate cid)], st.n + 1, st.sleptMs + 2000⟩
      (by intro k hk1 hk2; exact h k (by simp at hk1; omega) (by simp at hk2; omega))]
    simp only [Prod.mk.injEq, RunState.mk.injEq, List.append_assoc, List.singleton_append,
      List.replicate_succ]
    refine ⟨?_, ?_, ?_, ?_⟩ <;> first | trivial | omega

/-- Hitting ERROR at poll offset `j` (with non-terminal statuses before):
the loop stops there with the container-failure error carrying the
container id and the reported status text. -/
theorem waitForContainerGo_error (oracle : Oracle) (cid : Option String) (mA : Nat) :
    ∀ (j : Nat) (fuel : Nat) (st : RunState), j < fuel →
    (∀ i, i < j → (oracle (st.n + i)).status_code ≠ some "FINISHED" ∧
      (oracle (st.n + i)).status_code ≠ some "ERROR") →
    (oracle (st.n + j)).status_code = some "ERROR" →
    waitForContainerGo oracle cid mA fuel st =
      (.error (.containerError (jsTemplate cid)
         (jsOrDefault (oracle (st.n + j)).status "Unknown error")),
       ⟨st.calls ++ List.replicate (j + 1) (Request.checkStatus (jsTemplate cid)),
        st.n + j + 1, st.sleptMs + 2000 * j⟩) := by
  intro j
  induction j with
  | zero =>
    intro fuel st hj hpre herr
    cases fuel with
    | zero => exact absurd hj (by omega)
    | succ f =>
      rw [Nat.add_zero] at herr
      simp only [waitForContainerGo, checkContainerStatus, fetchJson]
      rw [if_neg (by rw [herr]; decide), if_pos herr]
      simp [herr]
  | succ j' ih =>
    intro fuel st hj hpre herr
    cases fuel with
    | zero => exact absurd hj (by omega)
    | succ f =>
      have h0 := hpre 0 (by omega)
      rw [Nat.add_zero] at h0
      simp only [waitForContainerGo, checkContainerStatus, fetchJson]
      rw [if_neg h0.1, if_neg h0.2]
      simp only [sleep]
      have hrec := ih f ⟨st.calls ++ [Request.checkStatus (jsTemplate cid)], st.n + 1,
        st.sleptMs + 2000⟩ (by omega)
        (by intro i hi
            have := hpre (i + 1) (by omega)
            simpa [Nat.add_assoc, Nat.add_comm 1 i] using this)
        (by simpa [Nat.add_assoc, Nat.add_comm 1 j'] using herr)
      rw [hrec]
      have e2 : st.n + 1 + j' = st.n + (j' + 1) := by omega
      simp only [e2, Prod.mk.injEq, RunState.mk.injEq, List.append_assoc, List.singleton_append,
        List.replicate_succ]
      refine ⟨?_, ?_, ?_, ?_⟩ <;> first | trivial | omega

/-- Shape of any run of the poll loop: it appends only status queries for
the polled container, consumes one response per query, only fails with
polling errors (never a creation/publish failure), timeouts carry the
original attempt bound, and a container-failure result comes from an
actual ERROR status response in the consumed window. -/
theorem waitForContainerGo_master (oracle : Oracle) (cid : Option String) (mA : Nat) :
    ∀ (fuel : Nat) (st : RunState) (r : Except PostError Unit) (st' : RunState),
    waitForContainerGo oracle cid mA fuel st = (r, st') →
    (∃ j, st'.calls = st.calls ++ List.replicate j (Request.checkStatus (jsTemplate cid)) ∧
       st'.n = st.n + j) ∧
    (∀ e, r = .error e → e.remoteApiMessage = none ∧ ∀ c a, e = .containerTimeout c a → a = mA) ∧
    (∀ c s, r = .error (.containerError c s) →
       c = jsTemplate cid ∧ ∃ k, st.n ≤ k ∧ k < st'.n ∧ (oracle k).status_code = some "ERROR" ∧
         s = jsOrDefault (oracle k).status "Unknown error") := by
  intro fuel
  induction fuel with
  | zero =>
    intro st r st' h
    simp only [waitForContainerGo] at h
    rw [Prod.mk.injEq] at h
    obtain ⟨rfl, rfl⟩ := h
    refine ⟨⟨0, by simp, by simp⟩, ?_, ?_⟩
    · intro e he
      injection he with h3
      subst h3
      exact ⟨rfl, by intro c a hca; cases hca; rfl⟩
    · intro c s hcs
      exact absurd hcs (by simp)
  | succ f ih =>
    intro st r st' h
    simp only [waitForContainerGo, checkContainerStatus, fetchJson] at h
    by_cases hF : (oracle st.n).status_code = some "FINISHED"
    · rw [if_pos hF] at h
      rw [Prod.mk.injEq] at h
      obtain ⟨rfl, rfl⟩ := h
      refine ⟨⟨1, by simp, by simp⟩, ?_, ?_⟩
      · intro e he
        exact absurd he (by simp)
      · intro c s hcs
        exact absurd hcs (by simp)
    · rw [if_neg hF] at h
      by_cases hE : (oracle st.n).status_code = some "ERROR"
      · rw [if_pos hE] at h
        rw [Prod.mk.injEq] at h
        obtain ⟨rfl, rfl⟩ := h
        refine ⟨⟨1, by simp, by simp⟩, ?_, ?_⟩
        · intro e he
          injection he with h3
          subst h3
          exact ⟨rfl, by intro c a hca; exact absurd hca (by simp)⟩
        · intro c s hcs
          injection hcs with h3
          injection h3 with h4 h5
          exact ⟨h4.symm, st.n, Nat.le_refl _, by simp, hE, h5.symm⟩
      · rw [if_neg hE] at h
        obtain ⟨⟨j, hc, hn⟩, herr, hcerr⟩ :=
          ih (sleep 2000 ⟨st.calls ++ [Request.checkStatus (jsTemplate cid)], st.n + 1,
            st.sleptMs⟩) r st' h
        refine ⟨⟨j + 1, ?_, ?_⟩, herr, ?_⟩
        · rw [hc]; simp [sleep, List.replicate_succ, List.append_assoc]
        · rw [hn]; simp [sleep]; omega
        · intro c s hcs
          obtain ⟨hceq, k, hk1, hk2, hkE, hks⟩ := hcerr c s hcs
          refine ⟨hceq, k, ?_, hk2, hkE, hks⟩
          simp [sleep] at hk1
          omega

/-- Shape of any run of the item-creation loop: it appends only
carousel-item creation requests, and can only fail with a
container-creation failure whose message is the error object of the last
consumed response. -/
theorem createItemContainers_master (oracle : Oracle) (acct : String) :
    ∀ (us : List String) (st : RunState) (r : Except PostError (List (Option String)))
      (st' : RunState),
    createItemContainers oracle acct us st = (r, st') →
    (∃ L, st'.calls = st.calls ++ L ∧ ∀ x ∈ L, ∃ w, x = Request.createMedia acct w true) ∧
    st.n ≤ st'.n ∧
    (∀ e, r = .error e → ∃ m, e = .createContainerFailed m ∧ st.n < st'.n ∧
       (oracle (st'.n - 1)).error = some m) := by
  intro us
  induction us with
  | nil =>
    intro st r st' h
    simp only [createItemContainers] at h
    rw [Prod.mk.injEq] at h
    obtain ⟨rfl, rfl⟩ := h
    exact ⟨⟨[], by simp, by simp⟩, Nat.le_refl _, by intro e he; exact absurd he (by simp)⟩
  | cons u rest ih =>
    intro st r st' h
    simp only [createItemContainers, createMediaContainer, fetchJson] at h
    rcases hO : (oracle st.n).error with _ | msg
    · simp only [hO] at h
      rcases hR : createItemContainers oracle acct rest
          (sleep 1000 ⟨st.calls ++ [Request.createMedia acct u true], st.n + 1, st.sleptMs⟩)
        with ⟨r2, st2⟩
      rw [hR] at h
      obtain ⟨⟨L2, hc2, hall2⟩, hn2, herr2⟩ := ih _ _ _ hR
      simp only [sleep] at hc2 hn2
      rcases r2 with e2 | cids2
      · dsimp only at h
        rw [Prod.mk.injEq] at h
        obtain ⟨rfl, rfl⟩ := h
        refine ⟨⟨Request.createMedia acct u true :: L2, ?_, ?_⟩, by omega, ?_⟩
        · rw [hc2]; simp
        · intro x hx
          rcases List.mem_cons.mp hx with rfl | hx2
          · exact ⟨u, rfl⟩
          · exact hall2 x hx2
        · intro e he
          injection he with h3
          subst h3
          obtain ⟨m, hm1, hm2, hm3⟩ := herr2 _ rfl
          simp only [sleep] at hm2
          exact ⟨m, hm1, by omega, hm3⟩
      · dsimp only at h
        rw [Prod.mk.injEq] at h
        obtain ⟨rfl, rfl⟩ := h
        refine ⟨⟨Request.createMedia acct u true :: L2, ?_, ?_⟩, by omega, ?_⟩
        · rw [hc2]; simp
        · intro x hx
          rcases List.mem_cons.mp hx with rfl | hx2
          · exact ⟨u, rfl⟩
          · exact hall2 x hx2
        · intro e he
          exact absurd he (by simp)
    · simp only [hO] at h
      rw [Prod.mk.injEq] at h
      obtain ⟨rfl, rfl⟩ := h
      refine ⟨⟨[Request.createMedia acct u true], rfl, ?_⟩, by dsimp only; omega, ?_⟩
      · intro x hx
        simp at hx
        exact ⟨u, hx⟩
      · intro e he
        injection he with h3
        subst h3
        exact ⟨msg, rfl, by dsimp only; omega, by simpa using hO⟩

/-- Shape of any run of the poll-all loop: it appends only status
queries, and only fails with polling errors whose timeouts carry the
attempt bound 30 it passes down. -/
theorem waitForAll_master (oracle : Oracle) :
    ∀ (cids : List (Option String)) (st : RunState) (r : Except PostError Unit)
      (st' : RunState),
    waitForAll oracle 30 cids st = (r, st') →
    (∃ L, st'.calls = st.calls ++ L ∧ ∀ x ∈ L, ∃ c, x = Request.checkStatus c) ∧
    st.n ≤ st'.n ∧
    (∀ e, r = .error e → e.remoteApiMessage = none ∧ ∀ c a, e = .containerTimeout c a → a = 30) := by
  intro cids
  induction cids with
  | nil =>
    intro st r st' h
    simp only [waitForAll] at h
    rw [Prod.mk.injEq] at h
    obtain ⟨rfl, rfl⟩ := h
    exact ⟨⟨[], by simp, by simp⟩, Nat.le_refl _, by intro e he; exact absurd he (by simp)⟩
  | cons c rest ih =>
    intro st r st' h
    simp only [waitForAll] at h
    rcases hW : waitForContainer oracle c 30 st with ⟨rw1, stw⟩
    rw [hW] at h
    obtain ⟨⟨j, hjc, hjn⟩, herrW, _⟩ :=
      waitForContainerGo_master oracle c 30 30 st rw1 stw (by simpa [waitForContainer] using hW)
    rcases rw1 with e1 | u1
    · dsimp only at h
      rw [Prod.mk.injEq] at h
      obtain ⟨rfl, rfl⟩ := h
      refine ⟨⟨List.replicate j (Request.checkStatus (jsTemplate c)), hjc, ?_⟩, by omega, ?_⟩
      · intro x hx
        exact ⟨jsTemplate c, (List.eq_of_mem_replicate hx)⟩
      · intro e he
        injection he with h3
        subst h3
        exact herrW _ rfl
    · dsimp only at h
      obtain ⟨⟨L2, hc2, hall2⟩, hn2, herr2⟩ := ih _ _ _ h
      refine ⟨⟨List.replicate j (Request.checkStatus (jsTemplate c)) ++ L2, ?_, ?_⟩,
        by omega, herr2⟩
      · rw [hc2, hjc, List.append_assoc]
      · intro x hx
        rcases List.mem_append.mp hx with hx1 | hx2
        · exact ⟨jsTemplate c, List.eq_of_mem_replicate hx1⟩
        · exact hall2 x hx2

/-- Shape of any non-simulated `postCarousel` run: a container-failure
result means no publish request was ever issued; a timeout always carries
attempt bound 30; a creation/publish failure reproduces the error message
of the last consumed response (the run stops at the failing call). -/
theorem postCarousel_err_master (oracle : Oracle) (acct : String)
    (imageUrls : List (Option String)) (caption : String) (st : RunState)
    (r : Except PostError (Option String)) (st' : RunState)
    (h : postCarousel oracle acct imageUrls caption false st = (r, st')) :
    (∃ L, st'.calls = st.calls ++ L ∧
       (∀ c s, r = .error (.containerError c s) → ∀ a b, Request.mediaPublish a b ∉ L)) ∧
    (∀ c a, r = .error (.containerTimeout c a) → a = 30) ∧
    (∀ e m, r = .error e → e.remoteApiMessage = some m →
       st.n < st'.n ∧ (oracle (st'.n - 1)).error = some m) := by
  simp only [postCarousel, Bool.false_eq_true, if_false] at h
  by_cases h0 : (imageUrls.filterMap (fun u => u)).length = 0
  · rw [if_pos h0] at h
    rw [Prod.mk.injEq] at h
    obtain ⟨rfl, rfl⟩ := h
    refine ⟨⟨[], by simp, by intro c s hcs; exact absurd hcs (by simp)⟩,
      by intro c a hca; exact absurd hca (by simp), ?_⟩
    intro e m he hm
    injection he with h3
    subst h3
    simp [PostError.remoteApiMessage] at hm
  · rw [if_neg h0] at h
    rcases hV : imageUrls.filterMap (fun u => u) with _ | ⟨u, tail⟩
    · rw [hV] at h0
      simp at h0
    rcases tail with _ | ⟨v, rest⟩
    · rw [hV] at h
      dsimp only at h
      simp only [createSingleImageContainer, fetchJson] at h
      rcases hO : (oracle st.n).error with _ | msg
      · simp only [hO] at h
        rcases hW : waitForContainer oracle (oracle st.n).id 30
            ⟨st.calls ++ [Request.createSingle acct u caption], st.n + 1, st.sleptMs⟩
          with ⟨rw1, stw⟩
        rw [hW] at h
        obtain ⟨⟨j, hjc, hjn⟩, herrW, _⟩ :=
          waitForContainerGo_master oracle _ 30 30 _ rw1 stw
            (by simpa [waitForContainer] using hW)
        dsimp only at hjc hjn
        rcases rw1 with e1 | u1
        · dsimp only at h
          rw [Prod.mk.injEq] at h
          obtain ⟨rfl, rfl⟩ := h
          refine ⟨⟨Request.createSingle acct u caption ::
              List.replicate j (Request.checkStatus (jsTemplate (oracle st.n).id)), ?_, ?_⟩,
            ?_, ?_⟩
          · rw [hjc]; simp
          · intro c s hcs a b hmem
            rcases List.mem_cons.mp hmem with h4 | h4
            · exact absurd h4 (by simp)
            · exact absurd (List.eq_of_mem_replicate h4) (by simp)
          · intro c a hca
            injection hca with h3
            exact (herrW e1 rfl).2 c a h3
          · intro e m he hm
            injection he with h3
            subst h3
            have hnone := (herrW _ rfl).1
            rw [hnone] at hm
            exact absurd hm (by simp)
        · dsimp only at h
          simp only [publishMedia, fetchJson] at h
          rcases hO2 : (oracle stw.n).error with _ | msg2
          · simp only [hO2] at h
            rw [Prod.mk.injEq] at h
            obtain ⟨rfl, rfl⟩ := h
            refine ⟨⟨Request.createSingle acct u caption ::
                (List.replicate j (Request.checkStatus (jsTemplate (oracle st.n).id)) ++
                  [Request.mediaPublish acct (jsTemplate (oracle st.n).id)]), ?_,
              by intro c s hcs; exact absurd hcs (by simp)⟩,
              by intro c a hca; exact absurd hca (by simp),
              by intro e m he hm; exact absurd he (by simp)⟩
            dsimp only
            rw [hjc]
            simp
          · simp only [hO2] at h
            rw [Prod.mk.injEq] at h
            obtain ⟨rfl, rfl⟩ := h
            refine ⟨⟨Request.createSingle acct u caption ::
                (List.replicate j (Request.checkStatus (jsTemplate (oracle st.n).id)) ++
                  [Request.mediaPublish acct (jsTemplate (oracle st.n).id)]), ?_,
              by intro c s hcs; exact absurd hcs (by simp)⟩,
              by intro c a hca; exact absurd hca (by simp), ?_⟩
            · dsimp only
              rw [hjc]
              simp
            · intro e m he hm
              injection he with h3
              subst h3
              simp only [PostError.remoteApiMessage, Option.some.injEq] at hm
              subst hm
              refine ⟨by dsimp only; omega, ?_⟩
              dsimp only
              simpa using hO2
      · simp only [hO] at h
        rw [Prod.mk.injEq] at h
        obtain ⟨rfl, rfl⟩ := h
        refine ⟨⟨[Request.createSingle acct u caption], rfl,
          by intro c s hcs; exact absurd hcs (by simp)⟩,
          by intro c a hca; exact absurd hca (by simp), ?_⟩
        intro e m he hm
        injection he with h3
        subst h3
        simp only [PostError.remoteApiMessage, Option.some.injEq] at hm
        subst hm
        exact ⟨by dsimp only; omega, by dsimp only; simpa using hO⟩
    · rw [hV] at h
      dsimp only at h
      rcases hC : createItemContainers oracle acct (u :: v :: rest) st with ⟨r1, st1⟩
      rw [hC] at h
      obtain ⟨⟨L1, hc1, hall1⟩, hn1, herr1⟩ := createItemContainers_master oracle acct _ _ _ _ hC
      rcases r1 with e1 | cids1
      · dsimp only at h
        rw [Prod.mk.injEq] at h
        obtain ⟨rfl, rfl⟩ := h
        refine ⟨⟨L1, hc1, ?_⟩, ?_, ?_⟩
        · intro c s hcs
          obtain ⟨m, hm1, _, _⟩ := herr1 _ rfl
          injection hcs with h3
          rw [hm1] at h3
          exact absurd h3 (by simp)
        · intro c a hca
          obtain ⟨m, hm1, _, _⟩ := herr1 _ rfl
          injection hca with h3
          rw [hm1] at h3
          exact absurd h3 (by simp)
        · intro e m he hm
          injection he with h3
          subst h3
          obtain ⟨m2, hm1, hlt, horacle⟩ := herr1 _ rfl
          rw [hm1] at hm
          simp only [PostError.remoteApiMessage, Option.some.injEq] at hm
          subst hm
          exact ⟨hlt, horacle⟩
      · dsimp only at h
        rcases hWA : waitForAll oracle 30 cids1 st1 with ⟨r2, st2⟩
        rw [hWA] at h
        obtain ⟨⟨L2, hc2, hall2⟩, hn2, herr2⟩ := waitForAll_master oracle _ _ _ _ hWA
        rcases r2 with e2 | u2
        · dsimp only at h
          rw [Prod.mk.injEq] at h
          obtain ⟨rfl, rfl⟩ := h
          refine ⟨⟨L1 ++ L2, by rw [hc2, hc1, List.append_assoc], ?_⟩, ?_, ?_⟩
          · intro c s hcs a b hmem
            rcases List.mem_append.mp hmem with h4 | h4
            · obtain ⟨w, hw⟩ := hall1 _ h4
              exact absurd hw (by simp)
            · obtain ⟨cc, hcc⟩ := hall2 _ h4
              exact absurd hcc (by simp)
          · intro c a hca
            injection hca with h3
            exact (herr2 e2 rfl).2 c a h3
          · intro e m he hm
            injection he with h3
            subst h3
            have hnone := (herr2 _ rfl).1
            rw [hnone] at hm
            exact absurd hm (by simp)
        · dsimp only at h
          simp only [createCarouselContainer, fetchJson] at h
          rcases hO3 : (oracle st2.n).error with _ | msg3
          · simp only [hO3] at h
            rcases hW2 : waitForContainer oracle (oracle st2.n).id 30
                ⟨st2.calls ++ [Request.createCarousel acct (jsJoinComma cids1) caption],
                 st2.n + 1, st2.sleptMs⟩
              with ⟨r3, st3⟩
            rw [hW2] at h
            obtain ⟨⟨j3, hj3c, hj3n⟩, herrW3, _⟩ :=
              waitForContainerGo_master oracle _ 30 30 _ r3 st3
                (by simpa [waitForContainer] using hW2)
            dsimp only at hj3c hj3n
            rcases r3 with e3 | u3
            · dsimp only at h
              rw [Prod.mk.injEq] at h
              obtain ⟨rfl, rfl⟩ := h
              refine ⟨⟨L1 ++ L2 ++
                  (Request.createCarousel acct (jsJoinComma cids1) caption ::
                    List.replicate j3 (Request.checkStatus (jsTemplate (oracle st2.n).id))),
                ?_, ?_⟩, ?_, ?_⟩
              · rw [hj3c, hc2, hc1]
                simp
              · intro c s hcs a b hmem
                rcases List.mem_append.mp hmem with h4 | h4
                · rcases List.mem_append.mp h4 with h5 | h5
                  · obtain ⟨w, hw⟩ := hall1 _ h5
                    exact absurd hw (by simp)
                  · obtain ⟨cc, hcc⟩ := hall2 _ h5
                    exact absurd hcc (by simp)
                · rcases List.mem_cons.mp h4 with h5 | h5
                  · exact absurd h5 (by simp)
                  · exact absurd (List.eq_of_mem_replicate h5) (by simp)
              · intro c a hca
                injection hca with h3
                exact (herrW3 e3 rfl).2 c a h3
              · intro e m he hm
                injection he with h3
                subst h3
                have hnone := (herrW3 _ rfl).1
                rw [hnone] at hm
                exact absurd hm (by simp)
            · dsimp only at h
              simp only [publishMedia, fetchJson] at h
              rcases hO4 : (oracle st3.n).error with _ | msg4
              · simp only [hO4] at h
                rw [Prod.mk.injEq] at h
                obtain ⟨rfl, rfl⟩ := h
                refine ⟨⟨L1 ++ L2 ++
                    (Request.createCarousel acct (jsJoinComma cids1) caption ::
                      (List.replicate j3 (Request.checkStatus (jsTemplate (oracle st2.n).id)) ++
                        [Request.mediaPublish acct (jsTemplate (oracle st2.n).id)])), ?_,
                  by intro c s hcs; exact absurd hcs (by simp)⟩,
                  by intro c a hca; exact absurd hca (by simp),
                  by intro e m he hm; exact absurd he (by simp)⟩
                dsimp only
                rw [hj3c, hc2, hc1]
                simp
              · simp only [hO4] at h
                rw [Prod.mk.injEq] at h
                obtain ⟨rfl, rfl⟩ := h
                refine ⟨⟨L1 ++ L2 ++
                    (Request.createCarousel acct (jsJoinComma cids1) caption ::
                      (List.replicate j3 (Request.checkStatus (jsTemplate (oracle st2.n).id)) ++
                        [Request.mediaPublish acct (jsTemplate (oracle st2.n).id)])), ?_,
                  by intro c s hcs; exact absurd hcs (by simp)⟩,
                  by intro c a hca; exact absurd hca (by simp), ?_⟩
                · dsimp only
                  rw [hj3c, hc2, hc1]
                  simp
                · intro e m he hm
                  injection he with h3
                  subst h3
                  simp only [PostError.remoteApiMessage, Option.some.injEq] at hm
                  subst hm
                  refine ⟨by dsimp only; omega, ?_⟩
                  dsimp only
                  simpa using hO4
          · simp only [hO3] at h
            rw [Prod.mk.injEq] at h
            obtain ⟨rfl, rfl⟩ := h
            refine ⟨⟨L1 ++ L2 ++ [Request.createCarousel acct (jsJoinComma cids1) caption], ?_,
              by intro c s hcs; exact absurd hcs (by simp)⟩,
              by intro c a hca; exact absurd hca (by simp), ?_⟩
            · dsimp only
              rw [hc2, hc1]
              simp
            · intro e m he hm
              injection he with h3
              subst h3
              simp only [PostError.remoteApiMessage, Option.some.injEq] at hm
              subst hm
              exact ⟨by dsimp only; omega, by dsimp only; simpa using hO3⟩

/-- The value returned by `validateToken`: `{valid:false, error}` or
`{valid:true, name, id}` (either of which may be an absent field in JS,
hence `Option`). -/
inductive TokenResult where
  | invalid (error : String)
  | valid (name : Option String) (id : Option String)
deriving DecidableEq, Repr

/-- `validateToken()`: GET `/me`; returns invalid with the platform
message on an `error` object, else valid with
`data.username || data.name || data.id` as the identity label. -/
def validateToken (oracle : Oracle) (st : RunState) : TokenResult × RunState :=
  let r := fetchJson oracle .getMe st
  match r.1.error with
  | some msg => (.invalid msg, r.2)
  | none => (.valid (jsOr r.1.username (jsOr r.1.name r.1.id)) r.1.id, r.2)

/-! Concrete oracles used to evaluate the theorems on explicit runs. -/

/-- Concrete container/post ids handed out by `oracleAllHappy`. -/
def happyIds (k : Nat) : String := "id" ++ toString k

/-- A platform on which every call succeeds, every created object gets id
`happyIds k`, and every status query reports FINISHED. -/
def oracleAllHappy : Oracle :=
  fun k => ⟨none, some (happyIds k), some "FINISHED", none, none, none⟩

/-- A platform on which every status query reports IN_PROGRESS forever. -/
def oracleInProgress : Oracle :=
  fun _ => ⟨none, none, some "IN_PROGRESS", none, none, none⟩

/-- A platform on which every status query reports EXPIRED forever. -/
def oracleExpired : Oracle :=
  fun _ => ⟨none, none, some "EXPIRED", none, none, none⟩

/-- A platform whose every status query reports ERROR with status text
"bad image". -/
def oracleStatusError : Oracle :=
  fun _ => ⟨none, none, some "ERROR", some "bad image", none, none⟩

/-- A platform that creates container "e1" and then reports ERROR with
status text "bad image" on every status query. -/
def oracleOkThenStatusError : Oracle :=
  fun k => if k = 0 then ⟨none, some "e1", none, none, none, none⟩
           else ⟨none, none, some "ERROR", some "bad image", none, none⟩

/-- A platform that creates container "c1" and then answers every further
call with a platform error object carrying message "boom". -/
def oracleOkThenApiError : Oracle :=
  fun k => if k = 0 then ⟨none, some "c1", none, none, none, none⟩
           else ⟨some "boom", none, none, none, none, none⟩

/-- A platform that answers every call with a platform error object
carrying message "boom". -/
def oracleAllApiError : Oracle :=
  fun _ => ⟨some "boom", none, none, none, none, none⟩

/-! Helper lemmas. -/

/-- Filtering nulls out of an all-non-null sequence is the identity. -/
theorem filterMap_map_some (l : List String) : (l.map some).filterMap (fun u => u) = l := by
  induction l with
  | nil => rfl
  | cons u rest ih => simp [ih]

/-- Step 1 of the carousel branch on an all-successful oracle: the item
containers are created in input order, collecting the returned ids, with a
1s pause after each creation. -/
theorem createItemContainers_happy (oracle : Oracle) (ids : Nat → String) (acct : String)
    (hErr : ∀ k, (oracle k).error = none) (hId : ∀ k, (oracle k).id = some (ids k)) :
    ∀ (us : List String) (st : RunState),
    createItemContainers oracle acct us st =
      (.ok ((List.range' st.n us.length).map (fun k => some (ids k))),
       ⟨st.calls ++ us.map (fun u => Request.createMedia acct u true),
        st.n + us.length, st.sleptMs + 1000 * us.length⟩) := by
  intro us
  induction us with
  | nil => intro st; simp [createItemContainers]
  | cons u rest ih =>
    intro st
    simp only [createItemContainers, createMediaContainer, fetchJson, hErr, hId, sleep]
    rw [ih]
    simp only [List.range'_succ, List.map_cons, List.length_cons, Prod.mk.injEq,
      RunState.mk.injEq, List.append_assoc, List.cons_append, List.nil_append]
    refine ⟨?_, ?_, ?_, ?_⟩ <;> first | trivial | omega

/-- Polling a container whose first status report is FINISHED: one status
query, immediate success, no sleeping. -/
theorem waitForContainer_finished (oracle : Oracle) (cid : Option String) (m : Nat)
    (hm : 0 < m) (st : RunState) (hFin : (oracle st.n).status_code = some "FINISHED") :
    waitForContainer oracle cid m st =
      (.ok (), ⟨st.calls ++ [.checkStatus (jsTemplate cid)], st.n + 1, st.sleptMs⟩) := by
  match m, hm with
  | m' + 1, _ =>
    simp [waitForContainer, waitForContainerGo, checkContainerStatus, fetchJson, hFin]

/-- Step 2 of the carousel branch when every status report is FINISHED:
one status query per container, in order. -/
theorem waitForAll_finished (oracle : Oracle)
    (hFin : ∀ k, (oracle k).status_code = some "FINISHED") :
    ∀ (cids : List (Option String)) (st : RunState),
    waitForAll oracle 30 cids st =
      (.ok (), ⟨st.calls ++ cids.map (fun c => Request.checkStatus (jsTemplate c)),
       st.n + cids.length, st.sleptMs⟩) := by
  intro cids
  induction cids with
  | nil => intro st; simp [waitForAll]
  | cons c rest ih =>
    intro st
    rw [waitForAll, waitForContainer_finished oracle c 30 (by omega) st (hFin st.n)]
    dsimp only
    rw [ih]
    simp only [List.map_cons, List.length_cons, Prod.mk.injEq, RunState.mk.injEq,
      List.append_assoc, List.cons_append, List.nil_append]
    refine ⟨?_, ?_, ?_, ?_⟩ <;> first | trivial | omega


/-! Claim theorems. -/

/-- C4: for every input URL sequence with at least one non-null entry,
`postCarousel` with `dryRun = true` returns the fixed sentinel
`DRY_RUN_SUCCESS` with the run state untouched: no request is issued, no
oracle response is consumed, and no time is slept — the simulate branch
short-circuits before any remote state is touched. -/
theorem postCarousel_simulate_no_network (oracle : Oracle) (acct : String)
    (imageUrls : List (Option String)) (caption : String) (st : RunState)
    (h : imageUrls.filterMap (fun u => u) ≠ []) :
    postCarousel oracle acct imageUrls caption true st = (.ok (some "DRY_RUN_SUCCESS"), st) := by
  have h' : ¬ (imageUrls.filterMap (fun u => u)).length = 0 := by
    simpa [List.length_eq_zero] using h
  simp [postCarousel, h']

/-- Witness for C4: a concrete two-image simulate run issues no calls. -/
theorem postCarousel_simulate_no_network_witness :
    postCarousel oracleInProgress "acct" [some "u1", some "u2"] "cap" true ⟨[], 0, 0⟩ =
      (.ok (some "DRY_RUN_SUCCESS"), ⟨[], 0, 0⟩) :=
  postCarousel_simulate_no_network oracleInProgress "acct" [some "u1", some "u2"] "cap"
    ⟨[], 0, 0⟩ (by decide)

/-- C5: for every input URL sequence that is empty after null-filtering,
`postCarousel` fails with the no-valid-media error for both values of
`dryRun` (the emptiness check precedes the simulate short-circuit), and
issues no network calls. -/
theorem postCarousel_empty_noValidMedia (oracle : Oracle) (acct : String)
    (imageUrls : List (Option String)) (caption : String) (dryRun : Bool) (st : RunState)
    (h : imageUrls.filterMap (fun u => u) = []) :
    postCarousel oracle acct imageUrls caption dryRun st = (.error .noValidMedia, st) := by
  simp [postCarousel, h]

/-- Witness for C5: a concrete all-null input fails with `noValidMedia`
under both simulate values. -/
theorem postCarousel_empty_noValidMedia_witness :
    postCarousel oracleInProgress "acct" [none, none] "cap" true ⟨[], 0, 0⟩ =
      (.error .noValidMedia, ⟨[], 0, 0⟩) ∧
    postCarousel oracleInProgress "acct" [none, none] "cap" false ⟨[], 0, 0⟩ =
      (.error .noValidMedia, ⟨[], 0, 0⟩) :=
  ⟨postCarousel_empty_noValidMedia oracleInProgress "acct" [none, none] "cap" true
      ⟨[], 0, 0⟩ (by decide),
   postCarousel_empty_noValidMedia oracleInProgress "acct" [none, none] "cap" false
      ⟨[], 0, 0⟩ (by decide)⟩

/-- C7: null entries are transparent — for every oracle, account, caption,
simulate flag and starting state, publishing `[null, u, null]` is the very
same computation as publishing `[u]` (the single-image path), with
identical calls and result. -/
theorem postCarousel_null_transparent (oracle : Oracle) (acct u caption : String)
    (dryRun : Bool) (st : RunState) :
    postCarousel oracle acct [none, some u, none] caption dryRun st =
      postCarousel oracle acct [some u] caption dryRun st := rfl

/-- C9: `validateToken` never throws: for every oracle response it returns
a value — invalid with the platform message when the response carries an
error object, otherwise valid with the identity label
`username || name || id` — and its only network activity is the single
read-only (non-mutating) GET `/me` probe, with no sleeping. -/
theorem validateToken_total_readonly (oracle : Oracle) (st : RunState) :
    validateToken oracle st =
      ((match (oracle st.n).error with
        | some msg => TokenResult.invalid msg
        | none => TokenResult.valid
            (jsOr (oracle st.n).username (jsOr (oracle st.n).name (oracle st.n).id))
            (oracle st.n).id),
       ⟨st.calls ++ [Request.getMe], st.n + 1, st.sleptMs⟩) ∧
    Request.getMe.isMutation = false := by
  refine ⟨?_, rfl⟩
  rcases h : (oracle st.n).error with _ | msg <;> simp [validateToken, fetchJson, h]

/-- C6: when exactly one URL survives null-filtering, the non-simulated
run takes the single-image path: exactly one container-creation call,
carrying both the image URL and the caption (the `createSingle` request,
which has no `is_carousel_item` flag), then one status poll, then the
publish call, returning the publish call's id — and no CAROUSEL assembly
call occurs anywhere in the trace. -/
theorem postCarousel_single_image_path (oracle : Oracle) (ids : Nat → String)
    (acct caption : String) (imageUrls : List (Option String)) (u : String)
    (hOne : imageUrls.filterMap (fun v => v) = [u])
    (hErr : ∀ k, (oracle k).error = none)
    (hId : ∀ k, (oracle k).id = some (ids k))
    (hFin : ∀ k, (oracle k).status_code = some "FINISHED") :
    postCarousel oracle acct imageUrls caption false ⟨[], 0, 0⟩ =
      (.ok (some (ids 2)),
       ⟨[Request.createSingle acct u caption, Request.checkStatus (ids 0),
         Request.mediaPublish acct (ids 0)], 3, 0⟩) ∧
    ∀ a ch cap, Request.createCarousel a ch cap ∉
      ([Request.createSingle acct u caption, Request.checkStatus (ids 0),
        Request.mediaPublish acct (ids 0)] : List Request) := by
  constructor
  · have h1 : createSingleImageContainer oracle acct u caption ⟨[], 0, 0⟩ =
        (.ok (some (ids 0)), ⟨[Request.createSingle acct u caption], 1, 0⟩) := by
      simp [createSingleImageContainer, fetchJson, hErr, hId]
    have h2 := waitForContainer_finished oracle (some (ids 0)) 30 (by omega)
      ⟨[Request.createSingle acct u caption], 1, 0⟩ (hFin 1)
    have h3 : publishMedia oracle acct (some (ids 0))
        ⟨[Request.createSingle acct u caption, Request.checkStatus (ids 0)], 2, 0⟩ =
        (.ok (some (ids 2)),
         ⟨[Request.createSingle acct u caption, Request.checkStatus (ids 0),
           Request.mediaPublish acct (ids 0)], 3, 0⟩) := by
      simp [publishMedia, fetchJson, hErr, hId, jsTemplate]
    simp only [postCarousel, hOne]
    rw [h1]
    dsimp only
    simp only [jsTemplate, Option.getD_some] at h2
    rw [h2]
    dsimp only
    exact h3
  · intro a ch cap
    simp

/-- Witness for C6: a concrete `[null, "u1"]` input on an all-successful
platform takes the single-image path. -/
theorem postCarousel_single_image_path_witness :
    postCarousel oracleAllHappy "acct" [none, some "u1"] "cap" false ⟨[], 0, 0⟩ =
      (.ok (some (happyIds 2)),
       ⟨[Request.createSingle "acct" "u1" "cap", Request.checkStatus (happyIds 0),
         Request.mediaPublish "acct" (happyIds 0)], 3, 0⟩) ∧
    ∀ a ch cap, Request.createCarousel a ch cap ∉
      ([Request.createSingle "acct" "u1" "cap", Request.checkStatus (happyIds 0),
        Request.mediaPublish "acct" (happyIds 0)] : List Request) :=
  postCarousel_single_image_path oracleAllHappy happyIds "acct" "cap" [none, some "u1"] "u1"
    rfl (fun _ => rfl) (fun _ => rfl) (fun _ => rfl)

/-- C1: for every sequence of N ≥ 2 non-null URLs on a platform where
every call succeeds and every poll reports FINISHED, the non-simulated run
issues exactly N item-container creations in input order (the
`createMedia` requests, which carry no caption), then one poll per item,
then exactly one carousel-parent creation whose `children` field is the
comma-join of the N returned container ids in that same order with the
caption attached, then one poll of the parent, then exactly one publish
call against the parent id, and returns the id returned by that publish
call. -/
theorem postCarousel_carousel_happy (oracle : Oracle) (ids : Nat → String)
    (acct caption : String) (urls : List String) (hLen : 2 ≤ urls.length)
    (hErr : ∀ k, (oracle k).error = none)
    (hId : ∀ k, (oracle k).id = some (ids k))
    (hFin : ∀ k, (oracle k).status_code = some "FINISHED") :
    postCarousel oracle acct (urls.map some) caption false ⟨[], 0, 0⟩ =
      (.ok (some (ids (2 * urls.length + 2))),
       ⟨urls.map (fun u => Request.createMedia acct u true)
          ++ (List.range' 0 urls.length).map (fun k => Request.checkStatus (ids k))
          ++ [Request.createCarousel acct
                (String.intercalate "," ((List.range' 0 urls.length).map ids)) caption,
              Request.checkStatus (ids (2 * urls.length)),
              Request.mediaPublish acct (ids (2 * urls.length))],
        2 * urls.length + 3, 1000 * urls.length⟩) := by
  match urls, hLen with
  | u :: v :: rest, _ =>
    have hfil := filterMap_map_some (u :: v :: rest)
    simp only [postCarousel]
    rw [filterMap_map_some]
    rw [if_neg (by simp)]
    simp only [Bool.false_eq_true, if_false]
    rw [createItemContainers_happy oracle ids acct hErr hId]
    dsimp only
    rw [waitForAll_finished oracle hFin]
    dsimp only
    simp only [createCarouselContainer, fetchJson, hErr, hId]
    rw [waitForContainer_finished oracle _ 30 (by omega) _ (hFin _)]
    dsimp only
    simp only [publishMedia, fetchJson, hErr, hId, jsTemplate, Option.getD_some]
    have e1 : (u :: v :: rest).length + (u :: v :: rest).length = 2 * (u :: v :: rest).length := by
      omega
    simp only [List.length_map, List.length_range', Nat.zero_add, List.map_map, Function.comp,
      Option.getD_some, jsJoinComma, List.nil_append, List.append_assoc, List.singleton_append,
      List.cons_append, e1]
    simp only [Function.comp_def, Option.getD_some]

/-- Witness for C1: the spec's three-URL scenario on an all-successful
platform, fully evaluated. -/
theorem postCarousel_carousel_happy_witness :
    postCarousel oracleAllHappy "acct" (["u1", "u2", "u3"].map some) "cap" false ⟨[], 0, 0⟩ =
      (.ok (some "id8"),
       ⟨[Request.createMedia "acct" "u1" true, Request.createMedia "acct" "u2" true,
         Request.createMedia "acct" "u3" true, Request.checkStatus "id0",
         Request.checkStatus "id1", Request.checkStatus "id2",
         Request.createCarousel "acct" "id0,id1,id2" "cap", Request.checkStatus "id6",
         Request.mediaPublish "acct" "id6"], 9, 3000⟩) := by
  rw [postCarousel_carousel_happy oracleAllHappy happyIds "acct" "cap" ["u1", "u2", "u3"]
    (by decide) (fun _ => rfl) (fun _ => rfl) (fun _ => rfl)]
  rfl

/-- C2: a status query reporting ERROR makes the wait loop fail
immediately with the container-failure error carrying the polled
container's id and the platform-reported status text (first conjunct), and
whenever a non-simulated `postCarousel` run fails with that error, the
trace it produced contains no publish request: the run aborted before
issuing the publish call (second conjunct). -/
theorem waitError_aborts_before_publish :
    (∀ (oracle : Oracle) (cid : Option String) (fuel j : Nat) (st : RunState),
      j < fuel →
      (∀ i, i < j → (oracle (st.n + i)).status_code ≠ some "FINISHED" ∧
        (oracle (st.n + i)).status_code ≠ some "ERROR") →
      (oracle (st.n + j)).status_code = some "ERROR" →
      waitForContainer oracle cid fuel st =
        (.error (.containerError (jsTemplate cid)
           (jsOrDefault (oracle (st.n + j)).status "Unknown error")),
         ⟨st.calls ++ List.replicate (j + 1) (Request.checkStatus (jsTemplate cid)),
          st.n + j + 1, st.sleptMs + 2000 * j⟩)) ∧
    (∀ (oracle : Oracle) (acct : String) (imageUrls : List (Option String)) (caption : String)
      (st : RunState) (c s : String) (st' : RunState),
      postCarousel oracle acct imageUrls caption false st =
        (.error (.containerError c s), st') →
      ∃ L, st'.calls = st.calls ++ L ∧ ∀ a b, Request.mediaPublish a b ∉ L) := by
  constructor
  · intro oracle cid fuel j st hj hpre herr
    simpa [waitForContainer] using
      waitForContainerGo_error oracle cid fuel j fuel st hj hpre herr
  · intro oracle acct imageUrls caption st c s st' h
    obtain ⟨⟨L, hL, hpub⟩, _, _⟩ :=
      postCarousel_err_master oracle acct imageUrls caption st _ st' h
    exact ⟨L, hL, hpub c s rfl⟩

/-- Witness for C2: a first-poll ERROR on a concrete platform, and the
publish-free trace of a concrete single-image run aborted by a container
ERROR. -/
theorem waitError_aborts_before_publish_witness :
    waitForContainer oracleStatusError (some "c1") 30 ⟨[], 0, 0⟩ =
      (.error (.containerError "c1" "bad image"), ⟨[Request.checkStatus "c1"], 1, 0⟩) ∧
    ∀ a b, Request.mediaPublish a b ∉
      ([Request.createSingle "acct" "u1" "cap", Request.checkStatus "e1"] : List Request) := by
  constructor
  · exact waitError_aborts_before_publish.1 oracleStatusError (some "c1") 30 0 ⟨[], 0, 0⟩
      (by omega) (by intro i hi; exact absurd hi (by omega)) rfl
  · intro a b hmem
    obtain ⟨L, hL, hpub⟩ := waitError_aborts_before_publish.2 oracleOkThenStatusError "acct"
      [some "u1"] "cap" ⟨[], 0, 0⟩ "e1" "bad image"
      ⟨[Request.createSingle "acct" "u1" "cap", Request.checkStatus "e1"], 2, 0⟩ rfl
    simp only [List.nil_append] at hL
    exact hpub a b (hL ▸ hmem)

/-- C3: a container whose status never reaches FINISHED (and never
reports ERROR) within the poll budget makes `waitForContainer` fail with
the timeout error carrying the container id and the attempt bound 30 (the
value every call site in `postCarousel` uses, via the source's default
parameter; the thrown message renders it as `30 * 2` seconds).  Exactly 30
status queries are issued with a fixed 2000 ms sleep after each, so the
wait per container is bounded by 60 s rather than unbounded. -/
theorem waitForContainer_timeout_cap (oracle : Oracle) (cid : Option String) (st : RunState)
    (h : ∀ k, st.n ≤ k → k < st.n + 30 →
      (oracle k).status_code ≠ some "FINISHED" ∧ (oracle k).status_code ≠ some "ERROR") :
    waitForContainer oracle cid 30 st =
      (.error (.containerTimeout (jsTemplate cid) 30),
       ⟨st.calls ++ List.replicate 30 (Request.checkStatus (jsTemplate cid)),
        st.n + 30, st.sleptMs + 2000 * 30⟩) := by
  simpa [waitForContainer] using waitForContainerGo_timeout oracle cid 30 30 st h

/-- Witness for C3: a concrete always-IN_PROGRESS platform times out
after exactly 30 polls and 60000 ms of sleeping. -/
theorem waitForContainer_timeout_cap_witness :
    waitForContainer oracleInProgress (some "c") 30 ⟨[], 0, 0⟩ =
      (.error (.containerTimeout "c" 30),
       ⟨List.replicate 30 (Request.checkStatus "c"), 30, 60000⟩) := by
  have h := waitForContainer_timeout_cap oracleInProgress (some "c") ⟨[], 0, 0⟩ ?hp
  case hp =>
    intro k hk1 hk2
    have hsc : (oracleInProgress k).status_code = some "IN_PROGRESS" := rfl
    rw [hsc]
    exact ⟨by decide, by decide⟩
  exact h

/-- C8 (amended): when a non-simulated run fails with a creation- or
publish-step failure (the errors carrying a platform message), the failing
response is the platform error object of the very last response consumed:
the run stops at the first erroring creation/assembly/publish call, issues
no further remote calls, and surfaces that platform message.  (The
original claim over status queries is refuted by
`postCarousel_statusQueryError_not_aborted`.) -/
theorem postCarousel_remoteApiError_aborts (oracle : Oracle) (acct : String)
    (imageUrls : List (Option String)) (caption : String) (st : RunState)
    (e : PostError) (m : String) (st' : RunState)
    (h : postCarousel oracle acct imageUrls caption false st = (.error e, st'))
    (hm : e.remoteApiMessage = some m) :
    st.n < st'.n ∧ (oracle (st'.n - 1)).error = some m :=
  (postCarousel_err_master oracle acct imageUrls caption st _ st' h).2.2 e m rfl hm

/-- Witness for C8: a concrete run whose first creation call receives an
error object stops after that one call with its message. -/
theorem postCarousel_remoteApiError_aborts_witness :
    (0 : Nat) < 1 ∧ (oracleAllApiError 0).error = some "boom" :=
  postCarousel_remoteApiError_aborts oracleAllApiError "acct" [some "u1", some "u2"] "cap"
    ⟨[], 0, 0⟩ (.createContainerFailed "boom") "boom"
    ⟨[Request.createMedia "acct" "u1" true], 1, 0⟩ rfl rfl

/-- Counterexample to C8 as stated: on a platform whose response to call
index 1 (the first status query) carries a platform error object "boom",
the run does not abort with a remote-API failure there — the status-query
code never inspects the error field, so the loop keeps polling, issues 30
status queries (indices 1..30) after that first error-bearing response,
and finally fails with a timeout, which carries no platform message. -/
theorem postCarousel_statusQueryError_not_aborted :
    (oracleOkThenApiError 1).error = some "boom" ∧
    postCarousel oracleOkThenApiError "acct" [some "u1"] "cap" false ⟨[], 0, 0⟩ =
      (.error (.containerTimeout "c1" 30),
       ⟨Request.createSingle "acct" "u1" "cap" :: List.replicate 30 (Request.checkStatus "c1"),
        31, 60000⟩) ∧
    (PostError.containerTimeout "c1" 30).remoteApiMessage = none :=
  ⟨rfl, by rfl, rfl⟩

/-- C10: the wait loop recognizes exactly two terminal statuses.  A first
status report of exactly "FINISHED" returns success after that single
query; exactly "ERROR" fails fast with the container-failure error after
that single query; and any window of responses whose status_code is never
one of those two literals — EXPIRED, PENDING, IN_PROGRESS, an absent
status_code, anything else — keeps the loop polling until the attempt cap
is exhausted and the timeout failure is raised. -/
theorem waitForContainer_terminal_statuses :
    (∀ (oracle : Oracle) (cid : Option String) (m : Nat) (st : RunState), 0 < m →
      (oracle st.n).status_code = some "FINISHED" →
      waitForContainer oracle cid m st =
        (.ok (), ⟨st.calls ++ [Request.checkStatus (jsTemplate cid)], st.n + 1, st.sleptMs⟩)) ∧
    (∀ (oracle : Oracle) (cid : Option String) (m : Nat) (st : RunState), 0 < m →
      (oracle st.n).status_code = some "ERROR" →
      waitForContainer oracle cid m st =
        (.error (.containerError (jsTemplate cid)
           (jsOrDefault (oracle st.n).status "Unknown error")),
         ⟨st.calls ++ [Request.checkStatus (jsTemplate cid)], st.n + 1, st.sleptMs⟩)) ∧
    (∀ (oracle : Oracle) (cid : Option String) (m : Nat) (st : RunState),
      (∀ k, st.n ≤ k → k < st.n + m →
        (oracle k).status_code ≠ some "FINISHED" ∧ (oracle k).status_code ≠ some "ERROR") →
      waitForContainer oracle cid m st =
        (.error (.containerTimeout (jsTemplate cid) m),
         ⟨st.calls ++ List.replicate m (Request.checkStatus (jsTemplate cid)),
          st.n + m, st.sleptMs + 2000 * m⟩)) := by
  refine ⟨?_, ?_, ?_⟩
  · intro oracle cid m st hm hF
    exact waitForContainer_finished oracle cid m hm st hF
  · intro oracle cid m st hm hE
    match m, hm with
    | m' + 1, _ =>
      simp [waitForContainer, waitForContainerGo, checkContainerStatus, fetchJson, hE]
  · intro oracle cid m st hall
    simpa [waitForContainer] using waitForContainerGo_timeout oracle cid m m st hall

/-- Witness for C10: concrete FINISHED, ERROR and EXPIRED platforms
exercise the three conjuncts (EXPIRED polls through to the timeout). -/
theorem waitForContainer_terminal_statuses_witness :
    waitForContainer oracleAllHappy (some "c") 30 ⟨[], 0, 0⟩ =
      (.ok (), ⟨[Request.checkStatus "c"], 1, 0⟩) ∧
    waitForContainer oracleStatusError (some "c") 30 ⟨[], 0, 0⟩ =
      (.error (.containerError "c" "bad image"), ⟨[Request.checkStatus "c"], 1, 0⟩) ∧
    waitForContainer oracleExpired (some "c") 30 ⟨[], 0, 0⟩ =
      (.error (.containerTimeout "c" 30),
       ⟨List.replicate 30 (Request.checkStatus "c"), 30, 60000⟩) := by
  refine ⟨waitForContainer_terminal_statuses.1 oracleAllHappy (some "c") 30 ⟨[], 0, 0⟩
      (by decide) rfl,
    waitForContainer_terminal_statuses.2.1 oracleStatusError (some "c") 30 ⟨[], 0, 0⟩
      (by decide) rfl,
    waitForContainer_terminal_statuses.2.2 oracleExpired (some "c") 30 ⟨[], 0, 0⟩ ?_⟩
  intro k hk1 hk2
  have hsc : (oracleExpired k).status_code = some "EXPIRED" := rfl
  rw [hsc]
  exact ⟨by decide, by decide⟩

end AIAutoPost
